import Mathlib

set_option maxRecDepth 10000

/-!
Verification of the runtime endpoint-resolution and request/response pipeline
of the Business_tools frontend (`frontend/app.js` and the `env.template.js`
runtime-environment injector).

The JavaScript source is shallowly embedded: strings are Lean `String`s,
JS numbers that the program produces are exact integers (`Int`/`Nat`) with an
explicit finiteness bound where IEEE-754 overflow to Infinity matters,
optional global configuration slots are `Option` fields, the DOM result
containers are a record of per-action display states, and the browser `fetch`
is an oracle mapping a request path to a response or a transport error.
-/

/-! ### Basic string helpers (models of the JS string primitives used) -/

/-- ASCII whitespace recognised by the model of `String.prototype.trim`. -/
def isWsChar (c : Char) : Bool :=
  c = ' ' || c = '\t' || c = '\n' || c = '\r' || c = '\x0b' || c = '\x0c'

/-- Model of JS `String.prototype.trim` (ASCII whitespace). -/
def jsTrim (s : String) : String :=
  (((s.data.dropWhile isWsChar).reverse.dropWhile isWsChar).reverse).asString

/-- Numeric value of a decimal digit character. -/
def digitVal (c : Char) : Nat := c.toNat - 48

/-- Value of a list of decimal digit characters, most significant first. -/
def digitsToNat (ds : List Char) : Nat :=
  ds.foldl (fun a c => a * 10 + digitVal c) 0

/-- Decimal digits of `n`, most significant first; `fuel` bounds recursion. -/
def natToDigitsAux : Nat → Nat → List Char
  | 0, _ => []
  | fuel + 1, n => if n = 0 then [] else natToDigitsAux fuel (n / 10) ++ [Char.ofNat (48 + n % 10)]

/-- Decimal rendering of a natural number, as JS renders integral numbers. -/
def natToStr (n : Nat) : String :=
  if n = 0 then "0" else (natToDigitsAux (n + 1) n).asString

/-- Decimal rendering of an integer, as JS renders integral numbers. -/
def intToStr (i : Int) : String :=
  if i < 0 then "-" ++ natToStr i.natAbs else natToStr i.natAbs

/-- Does `sub` occur at the head of `l`? (helper for the `includes` model). -/
def leadsWith : List Char → List Char → Bool
  | [], _ => true
  | _ :: _, [] => false
  | a :: as, b :: bs => a = b && leadsWith as bs

/-- Does `sub` occur contiguously anywhere in the second list? -/
def hasSegment (sub : List Char) : List Char → Bool
  | [] => sub.isEmpty
  | c :: t => leadsWith sub (c :: t) || hasSegment sub t

/-- Model of JS `String.prototype.includes`. -/
def containsSub (s sub : String) : Bool := hasSegment sub.data s.data

/-- `sub` occurs contiguously inside `s` (Prop form used in error-message claims). -/
def StrContains (s sub : String) : Prop :=
  ∃ l r : List Char, s.data = l ++ sub.data ++ r

/-! ### JS integer parsing (`Number.parseInt(·, 10)` and `Number.isFinite`) -/

/-- Model of JS `Number.parseInt(s, 10)`: skip leading whitespace, read an
optional sign, then the longest prefix of decimal digits; `none` models `NaN`
(no digits found). Trailing non-digit characters are ignored. The numeric
value is kept exact as an `Int`. -/
def jsParseInt (s : String) : Option Int :=
  let cs := s.data.dropWhile isWsChar
  let signed : Bool × List Char :=
    match cs with
    | '-' :: r => (true, r)
    | '+' :: r => (false, r)
    | r => (false, r)
  let ds := signed.2.takeWhile Char.isDigit
  if ds.isEmpty then none
  else some (if signed.1 then -(digitsToNat ds : Int) else (digitsToNat ds : Int))

/-- Smallest magnitude at which an exact integer rounds to IEEE-754 double
Infinity (round-to-nearest-even): `2^1024 - 2^970`. `Number.isFinite` is false
exactly for parsed values at or beyond this bound (and for `NaN`). -/
def jsDoubleOverflowBound : Nat := 2 ^ 1024 - 2 ^ 970

/-- Model of `Number.isFinite` on a parsed integer value. -/
def jsIsFiniteInt (n : Int) : Bool := n.natAbs < jsDoubleOverflowBound

/-- `Number.parseInt(s, 10)` followed by the `Number.isFinite` guard:
`some n` exactly when parsing finds digits and the value is a finite double. -/
def jsParseIntFinite (s : String) : Option Int :=
  match jsParseInt s with
  | some n => if jsIsFiniteInt n then some n else none
  | none => none

/-! ### Environment Injector (`env.template.js`, `configureRuntimeEnv`) -/

/-- The process-wide Runtime Configuration written by the injector:
`window.__BACKEND_URL__` and `window.__BACKEND_PORT__`, each `none` when the
corresponding global was never assigned. -/
structure RuntimeConfig where
  backendUrl : Option String
  backendPort : Option Int
deriving DecidableEq, Repr

/-- Embedding of `configureRuntimeEnv` from `env.template.js`: the two
arguments are the substitution results standing in the file for
`BACKEND_URL` and `BACKEND_PORT` when it executes. Each is trimmed; a field
is published only if the trimmed text is non-empty (JS truthiness) and
differs from the reconstructed placeholder marker; the port is additionally
parsed with `Number.parseInt(·, 10)` and published only if finite. -/
def configureRuntimeEnv (urlInput portInput : String) : RuntimeConfig :=
  let configuredUrl := jsTrim urlInput
  let configuredPort := jsTrim portInput
  { backendUrl :=
      if configuredUrl ≠ "" ∧ configuredUrl ≠ "${BACKEND_URL}" then some configuredUrl else none
    backendPort :=
      if configuredPort ≠ "" ∧ configuredPort ≠ "${BACKEND_PORT}" then
        jsParseIntFinite configuredPort
      else none }

/-! ### Endpoint Resolver (`app.js`, `backendBaseUrl`) -/

/-- The page's own location, as read by `app.js` (`window.location`). -/
structure PageLocation where
  protocol : String
  hostname : String
deriving DecidableEq, Repr

/-- The fallback branch of `backendBaseUrl`: JS evaluates
`window.__BACKEND_PORT__ || defaultPort`, so an injected port of `0` (falsy)
also selects the default `8000`. -/
def fallbackBaseUrl (cfg : RuntimeConfig) (loc : PageLocation) : String :=
  let port : Int :=
    match cfg.backendPort with
    | some p => if p = 0 then 8000 else p
    | none => 8000
  loc.protocol ++ "//" ++ loc.hostname ++ ":" ++ intToStr port

/-- Embedding of the `backendBaseUrl` IIFE from `app.js`: if
`window.__BACKEND_URL__` is truthy (present and non-empty) return it
unchanged, else build `protocol//hostname:port` from the page location. -/
def backendBaseUrl (cfg : RuntimeConfig) (loc : PageLocation) : String :=
  match cfg.backendUrl with
  | some u => if u = "" then fallbackBaseUrl cfg loc else u
  | none => fallbackBaseUrl cfg loc

/-- Modelled from the spec: "the whole input denotes a finite number" — the
trimmed input is, in its entirety, an optionally signed decimal numeral.
Used only to state claims about non-numeric substitution inputs; the code
itself uses the prefix-parsing `jsParseInt`. -/
def wholeInputIsFiniteNumber (s : String) : Bool :=
  let t := (jsTrim s).data
  let body : List Char :=
    match t with
    | '-' :: r => r
    | '+' :: r => r
    | r => r
  !body.isEmpty && body.all Char.isDigit

/-! ### Claim C1 — endpoint resolution -/

/-- C1 (amended): `backendBaseUrl` is a pure function of the Runtime
Configuration and the page's protocol/hostname. For every configuration
satisfying the injector invariant (a present `backendUrl` is never the empty
string), a present `backendUrl` is returned unchanged; when it is absent the
result is `protocol//hostname:port`, where the port is the injected
`backendPort` when present and nonzero, and the literal `8000` otherwise —
including when the injected `backendPort` equals `0`, which JS `||`
truthiness treats like an absent value. -/
theorem backendBaseUrl_resolution (cfg : RuntimeConfig) (loc : PageLocation)
    (hu : cfg.backendUrl ≠ some "") :
    (∀ u, cfg.backendUrl = some u → backendBaseUrl cfg loc = u) ∧
    (cfg.backendUrl = none →
      (∀ p, cfg.backendPort = some p → p ≠ 0 →
        backendBaseUrl cfg loc = loc.protocol ++ "//" ++ loc.hostname ++ ":" ++ intToStr p) ∧
      ((cfg.backendPort = none ∨ cfg.backendPort = some 0) →
        backendBaseUrl cfg loc =
          loc.protocol ++ "//" ++ loc.hostname ++ ":" ++ intToStr 8000)) := by
  constructor
  · intro u h
    have hne : u ≠ "" := by
      intro he
      exact hu (he ▸ h)
    simp [backendBaseUrl, h, hne]
  · intro h
    constructor
    · intro p hp hpz
      simp [backendBaseUrl, h, fallbackBaseUrl, hp, hpz]
    · rintro (hp | hp) <;> simp [backendBaseUrl, h, fallbackBaseUrl, hp]

/-- C1 witness: concrete evaluations of the amended resolution claim. -/
theorem backendBaseUrl_resolution_witness :
    backendBaseUrl ⟨none, some 9000⟩ ⟨"https:", "portal.example"⟩ = "https://portal.example:9000" ∧
    backendBaseUrl ⟨none, none⟩ ⟨"https:", "portal.example"⟩ = "https://portal.example:8000" ∧
    backendBaseUrl ⟨some "https://api.example:443", none⟩ ⟨"http:", "localhost"⟩ =
      "https://api.example:443" := by
  refine ⟨?h1, ?h2, ?h3⟩
  · exact ((backendBaseUrl_resolution ⟨none, some 9000⟩ ⟨"https:", "portal.example"⟩
      (by decide)).2 rfl).1 9000 rfl (by decide)
  · exact ((backendBaseUrl_resolution ⟨none, none⟩ ⟨"https:", "portal.example"⟩
      (by decide)).2 rfl).2 (Or.inl rfl)
  · exact (backendBaseUrl_resolution ⟨some "https://api.example:443", none⟩ ⟨"http:", "localhost"⟩
      (by decide)).1 "https://api.example:443" rfl

/-- C1 counterexample: the injector can publish `backendPort = 0` (input
`"0"` is non-empty, differs from the placeholder and parses to the finite
number `0`), yet the resolver then falls back to port `8000`, not port `0`,
because `0` is falsy in `window.__BACKEND_PORT__ || defaultPort`. -/
theorem backendBaseUrl_port_zero_counterexample :
    (configureRuntimeEnv "" "0").backendPort = some 0 ∧
    backendBaseUrl (configureRuntimeEnv "" "0") ⟨"https:", "portal.example"⟩ =
      "https://portal.example:8000" ∧
    "https://portal.example:8000" ≠ "https://portal.example:0" := by
  refine ⟨by decide, by decide, by decide⟩

/-! ### Claim C2 — port publication policy -/

/-- C2 (amended): `backendPort` is published exactly when the trimmed port
substitution input is non-empty, differs from the placeholder marker
`"${BACKEND_PORT}"`, and `Number.parseInt(·, 10)` finds a signed decimal
digit prefix whose value is a finite double; the published value is that
prefix parse, so an input with trailing garbage such as `"12abc"` publishes
`12` even though the whole input is not numeric. -/
theorem backendPort_published_iff (urlInput portInput : String) (n : Int) :
    (configureRuntimeEnv urlInput portInput).backendPort = some n ↔
      (jsTrim portInput ≠ "" ∧ jsTrim portInput ≠ "${BACKEND_PORT}" ∧
        jsParseIntFinite (jsTrim portInput) = some n) := by
  unfold configureRuntimeEnv
  by_cases h : jsTrim portInput ≠ "" ∧ jsTrim portInput ≠ "${BACKEND_PORT}"
  · simp [h]
  · simp [h]
    intro h1 h2
    exact absurd ⟨h1, h2⟩ h

/-- C2 witness: evaluating the publication characterization on the concrete
input `"9000"`. -/
theorem backendPort_published_iff_witness :
    (configureRuntimeEnv "" "9000").backendPort = some 9000 :=
  (backendPort_published_iff "" "9000" 9000).mpr ⟨by decide, by decide, by decide⟩

/-- C2 counterexample: `"12abc"` does not denote a finite number as a whole
input, yet the injector publishes `backendPort = 12` because
`Number.parseInt` parses the numeric prefix; the claim requires the field to
be absent for every non-numeric input. -/
theorem backendPort_prefix_parse_counterexample :
    wholeInputIsFiniteNumber "12abc" = false ∧
    (configureRuntimeEnv "" "12abc").backendPort = some 12 := by
  refine ⟨by decide, by decide⟩

/-! ### Claim C3 — placeholder and empty inputs leave fields absent -/

/-- C3: for every substitution input that trims to the empty string or to its
own placeholder marker, the corresponding Runtime Configuration field ends up
absent; a present `backendUrl` is never empty and never the placeholder, and
a present `backendPort` comes only from a finite `Number.parseInt` of a
non-placeholder input. -/
theorem configureRuntimeEnv_absent_invariants (urlInput portInput : String) :
    ((jsTrim urlInput = "" ∨ jsTrim urlInput = "${BACKEND_URL}") →
      (configureRuntimeEnv urlInput portInput).backendUrl = none) ∧
    ((jsTrim portInput = "" ∨ jsTrim portInput = "${BACKEND_PORT}") →
      (configureRuntimeEnv urlInput portInput).backendPort = none) ∧
    (∀ u, (configureRuntimeEnv urlInput portInput).backendUrl = some u →
      u ≠ "" ∧ u ≠ "${BACKEND_URL}") ∧
    (∀ p, (configureRuntimeEnv urlInput portInput).backendPort = some p →
      jsTrim portInput ≠ "${BACKEND_PORT}" ∧
        jsParseIntFinite (jsTrim portInput) = some p) := by
  refine ⟨?hu, ?hp, ?hus, ?hps⟩
  · intro h
    unfold configureRuntimeEnv
    rcases h with h | h <;> simp [h]
  · intro h
    unfold configureRuntimeEnv
    rcases h with h | h <;> simp [h]
  · intro u hu
    unfold configureRuntimeEnv at hu
    by_cases h : jsTrim urlInput ≠ "" ∧ jsTrim urlInput ≠ "${BACKEND_URL}"
    · simp [h] at hu
      exact hu ▸ h
    · simp [h] at hu
  · intro p hp
    unfold configureRuntimeEnv at hp
    by_cases h : jsTrim portInput ≠ "" ∧ jsTrim portInput ≠ "${BACKEND_PORT}"
    · simp [h] at hp
      exact ⟨h.2, hp⟩
    · simp [h] at hp

/-- C3 witness: a whitespace-padded placeholder URL input and an exact
placeholder port input both leave their fields absent. -/
theorem configureRuntimeEnv_absent_invariants_witness :
    (configureRuntimeEnv " ${BACKEND_URL} " "${BACKEND_PORT}").backendUrl = none ∧
    (configureRuntimeEnv " ${BACKEND_URL} " "${BACKEND_PORT}").backendPort = none :=
  ⟨(configureRuntimeEnv_absent_invariants " ${BACKEND_URL} " "${BACKEND_PORT}").1
      (Or.inr (by decide)),
    (configureRuntimeEnv_absent_invariants " ${BACKEND_URL} " "${BACKEND_PORT}").2.1
      (Or.inr (by decide))⟩

/-! ### JSON values and a model of `response.json()` -/

/-- JSON values as produced by `response.json()`. Numbers are kept exact as
`mantissa * 10 ^ exp10` (the claims under verification never inspect numeric
payloads, only the choice of return mode). -/
inductive JsonValue where
  | jnull
  | jbool (b : Bool)
  | jnum (mantissa : Int) (exp10 : Int)
  | jstr (s : String)
  | jarr (elems : List JsonValue)
  | jobj (fields : List (String × JsonValue))

/-- JSON insignificant whitespace. -/
def jsonWs (c : Char) : Bool := c = ' ' || c = '\t' || c = '\n' || c = '\r'

/-- Skip JSON insignificant whitespace. -/
def skipJsonWs (l : List Char) : List Char := l.dropWhile jsonWs

/-- Single-character JSON escapes. `\uXXXX` escapes are not modelled; the
parser fails on them, which routes such bodies to the parse-error path. -/
def escCharOf (c : Char) : Option Char :=
  if c = '"' then some '"'
  else if c = '\\' then some '\\'
  else if c = '/' then some '/'
  else if c = 'b' then some '\x08'
  else if c = 'f' then some '\x0c'
  else if c = 'n' then some '\n'
  else if c = 'r' then some '\r'
  else if c = 't' then some '\t'
  else none

/-- Parse the body of a JSON string after the opening quote, returning the
decoded characters and the remainder after the closing quote. -/
def parseJStringAux : Nat → List Char → Option (List Char × List Char)
  | 0, _ => none
  | _ + 1, [] => none
  | fuel + 1, c :: cs =>
    if c = '"' then some ([], cs)
    else if c = '\\' then
      match cs with
      | e :: cs2 =>
        match escCharOf e with
        | some ec =>
          match parseJStringAux fuel cs2 with
          | some (r, rest) => some (ec :: r, rest)
          | none => none
        | none => none
      | [] => none
    else
      match parseJStringAux fuel cs with
      | some (r, rest) => some (c :: r, rest)
      | none => none

/-- Parse an optional exponent tail after `e`/`E`. -/
def parseExpTail (r : List Char) : Option Int × List Char :=
  let signed : Int × List Char :=
    match r with
    | '+' :: q => (1, q)
    | '-' :: q => (-1, q)
    | q => (1, q)
  let es := signed.2.takeWhile Char.isDigit
  if es.isEmpty then (none, r)
  else (some (signed.1 * (digitsToNat es : Int)), signed.2.drop es.length)

/-- Parse a JSON number. -/
def parseJNumber (l : List Char) : Option (JsonValue × List Char) :=
  let signed : Bool × List Char :=
    match l with
    | '-' :: r => (true, r)
    | r => (false, r)
  let ds := signed.2.takeWhile Char.isDigit
  let l2 := signed.2.drop ds.length
  if ds.isEmpty then none
  else
    let fracPair : Option (List Char) × List Char :=
      match l2 with
      | '.' :: r =>
        let fs := r.takeWhile Char.isDigit
        (if fs.isEmpty then none else some fs, r.drop fs.length)
      | _ => (some [], l2)
    match fracPair with
    | (none, _) => none
    | (some fs, l3) =>
      let expPair : Option Int × List Char :=
        match l3 with
        | 'e' :: r => parseExpTail r
        | 'E' :: r => parseExpTail r
        | _ => (some 0, l3)
      match expPair with
      | (none, _) => none
      | (some e, l4) =>
        let mag : Int := (digitsToNat (ds ++ fs) : Nat)
        let mant : Int := if signed.1 then -mag else mag
        some (.jnum mant (e - (fs.length : Int)), l4)

/-- Which grammatical task the combined JSON parser is performing. -/
inductive JTask where
  | value
  | arrElems
  | objFields

/-- Result piece of the combined JSON parser, matching the task. -/
inductive JPiece where
  | val (v : JsonValue)
  | items (xs : List JsonValue)
  | fields (fs : List (String × JsonValue))

/-- Combined recursive-descent JSON parser (single function so that the
recursion is structural on the fuel and reduces definitionally). -/
def parseJ : Nat → JTask → List Char → Option (JPiece × List Char)
  | 0, _, _ => none
  | fuel + 1, .value, l =>
    match skipJsonWs l with
    | [] => none
    | c :: rest =>
      if c = '"' then
        match parseJStringAux (rest.length + 1) rest with
        | some (cs, rem) => some (.val (.jstr cs.asString), rem)
        | none => none
      else if c = 't' then
        match rest with
        | 'r' :: 'u' :: 'e' :: r => some (.val (.jbool true), r)
        | _ => none
      else if c = 'f' then
        match rest with
        | 'a' :: 'l' :: 's' :: 'e' :: r => some (.val (.jbool false), r)
        | _ => none
      else if c = 'n' then
        match rest with
        | 'u' :: 'l' :: 'l' :: r => some (.val .jnull, r)
        | _ => none
      else if c = '[' then
        match skipJsonWs rest with
        | ']' :: r => some (.val (.jarr []), r)
        | l2 =>
          match parseJ fuel .arrElems l2 with
          | some (.items xs, rem) => some (.val (.jarr xs), rem)
          | _ => none
      else if c = '\x7b' then
        match skipJsonWs rest with
        | '\x7d' :: r => some (.val (.jobj []), r)
        | l2 =>
          match parseJ fuel .objFields l2 with
          | some (.fields fs, rem) => some (.val (.jobj fs), rem)
          | _ => none
      else
        match parseJNumber (c :: rest) with
        | some (v, rem) => some (.val v, rem)
        | none => none
  | fuel + 1, .arrElems, l =>
    match parseJ fuel .value l with
    | some (.val v, rem) =>
      (match skipJsonWs rem with
       | ',' :: r2 =>
         match parseJ fuel .arrElems r2 with
         | some (.items xs, rm) => some (.items (v :: xs), rm)
         | _ => none
       | ']' :: r2 => some (.items [v], r2)
       | _ => none)
    | _ => none
  | fuel + 1, .objFields, l =>
    match l with
    | '"' :: r =>
      match parseJStringAux (r.length + 1) r with
      | some (kcs, r2) =>
        (match skipJsonWs r2 with
         | ':' :: r3 =>
           match parseJ fuel .value r3 with
           | some (.val v, r4) =>
             (match skipJsonWs r4 with
              | ',' :: r5 =>
                match parseJ fuel .objFields (skipJsonWs r5) with
                | some (.fields fs, rm) => some (.fields ((kcs.asString, v) :: fs), rm)
                | _ => none
              | '\x7d' :: r5 => some (.fields [(kcs.asString, v)], r5)
              | _ => none)
           | _ => none
         | _ => none)
      | none => none
    | _ => none

/-- Model of `response.json()` parsing: `some v` when the whole body is a
single JSON value (with only trailing whitespace), `none` when the promise
would reject with a syntax error. -/
def parseJson (s : String) : Option JsonValue :=
  match parseJ (2 * s.data.length + 4) .value s.data with
  | some (.val v, rem) => if skipJsonWs rem = [] then some v else none
  | _ => none

/-! ### Request pipeline (`app.js`, `fetchFromBackend`) -/

/-- The HTTP response handed to `fetchFromBackend` by the browser `fetch`:
status, status text, optional `content-type` header, and body text. -/
structure BackendResponse where
  status : Nat
  statusText : String
  contentType : Option String
  body : String

/-- Model of `Response.ok`: status in the 2xx range. -/
def responseOk (r : BackendResponse) : Bool := 200 ≤ r.status && r.status < 300

/-- The source's content-type test:
`contentType && contentType.includes('application/json')`. -/
def contentTypeIndicatesJson (r : BackendResponse) : Bool :=
  match r.contentType with
  | some ct => containsSub ct "application/json"
  | none => false

/-- The two success payload shapes returned by `fetchFromBackend`. -/
inductive Payload where
  | parsedJson (v : JsonValue)
  | rawText (s : String)

/-- Embedding of `fetchFromBackend` applied to the response the network
delivered: a non-ok response throws
`new Error(status + ' ' + statusText + ': ' + bodyText)`; an ok response
returns parsed JSON when the content-type includes `application/json`
(rejecting if the body is not valid JSON) and the raw body text otherwise. -/
def fetchFromBackend (r : BackendResponse) : Except String Payload :=
  if responseOk r = false then
    .error (natToStr r.status ++ " " ++ r.statusText ++ ": " ++ r.body)
  else if contentTypeIndicatesJson r = true then
    match parseJson r.body with
    | some v => .ok (.parsedJson v)
    | none => .error "SyntaxError: unexpected JSON input"
  else .ok (.rawText r.body)

/-- Appending strings concatenates their character data. -/
theorem strData_append (a b : String) : (a ++ b).data = a.data ++ b.data := by
  cases a
  cases b
  rfl

/-! ### Claim C4 — non-2xx responses become errors -/

/-- C4: for every response whose status is not 2xx, `fetchFromBackend`
yields an error regardless of body content, and the error message contains
the numeric status, the status text, and the response body text. -/
theorem fetchFromBackend_non2xx_error (r : BackendResponse) (h : responseOk r = false) :
    ∃ msg, fetchFromBackend r = .error msg ∧
      StrContains msg (natToStr r.status) ∧
      StrContains msg r.statusText ∧
      StrContains msg r.body := by
  refine ⟨natToStr r.status ++ " " ++ r.statusText ++ ": " ++ r.body, ?he, ?hs, ?hst, ?hb⟩
  · simp [fetchFromBackend, h]
  · exact ⟨[], (" " ++ r.statusText ++ ": " ++ r.body).data,
      by simp [strData_append, List.append_assoc]⟩
  · exact ⟨(natToStr r.status ++ " ").data, (": " ++ r.body).data,
      by simp [strData_append, List.append_assoc]⟩
  · exact ⟨(natToStr r.status ++ " " ++ r.statusText ++ ": ").data, [],
      by simp [strData_append, List.append_assoc]⟩

/-- C4 witness: a 404 response with body `"not found"` yields an error whose
message contains `"404"` and `"not found"`. -/
theorem fetchFromBackend_non2xx_error_witness :
    ∃ msg, fetchFromBackend ⟨404, "Not Found", none, "not found"⟩ = .error msg ∧
      StrContains msg "404" ∧ StrContains msg "not found" := by
  obtain ⟨msg, he, hs, _, hb⟩ :=
    fetchFromBackend_non2xx_error ⟨404, "Not Found", none, "not found"⟩ (by decide)
  have h404 : natToStr (BackendResponse.mk 404 "Not Found" none "not found").status = "404" := rfl
  exact ⟨msg, he, h404 ▸ hs, hb⟩

/-! ### Claim C5 — success payload modes -/

/-- C5: for every 2xx response, `fetchFromBackend` returns the parsed JSON
structure when the content-type indicates `application/json` (and the body
parses), and returns the raw body text unchanged otherwise, including when
the content-type header is missing. -/
theorem fetchFromBackend_success_modes (r : BackendResponse) (h : responseOk r = true) :
    (∀ v, contentTypeIndicatesJson r = true → parseJson r.body = some v →
      fetchFromBackend r = .ok (.parsedJson v)) ∧
    (contentTypeIndicatesJson r = false → fetchFromBackend r = .ok (.rawText r.body)) := by
  constructor
  · intro v hct hp
    simp [fetchFromBackend, h, hct, hp]
  · intro hct
    simp [fetchFromBackend, h, hct]

/-- C5 witness: a 200 JSON response with body `{"status":"ok"}` returns the
parsed structure, and a 200 plain-text response returns its body unchanged;
a 200 response with no content-type header also returns the raw text. -/
theorem fetchFromBackend_success_modes_witness :
    fetchFromBackend ⟨200, "OK", some "application/json", "\x7b\"status\":\"ok\"\x7d"⟩ =
      .ok (.parsedJson (.jobj [("status", .jstr "ok")])) ∧
    fetchFromBackend ⟨200, "OK", some "text/plain; charset=utf-8", "pong"⟩ =
      .ok (.rawText "pong") ∧
    fetchFromBackend ⟨204, "No Content", none, ""⟩ = .ok (.rawText "") :=
  ⟨(fetchFromBackend_success_modes ⟨200, "OK", some "application/json", "\x7b\"status\":\"ok\"\x7d"⟩
      rfl).1 (.jobj [("status", .jstr "ok")]) rfl rfl,
   (fetchFromBackend_success_modes ⟨200, "OK", some "text/plain; charset=utf-8", "pong"⟩
      rfl).2 rfl,
   (fetchFromBackend_success_modes ⟨204, "No Content", none, ""⟩ rfl).2 rfl⟩

/-! ### URL parsing model (`new URL(...)` and `URL.origin`) -/

/-- The parts of a parsed absolute URL that `URL.origin` depends on. A port
equal to the scheme's default is stored as `none`, as the WHATWG URL standard
prescribes (`URL.port` is empty for default ports). -/
structure UrlModel where
  scheme : String
  host : String
  port : Option Nat
deriving DecidableEq, Repr

/-- Characters allowed after the first character of a URL scheme. -/
def schemeRestOk (c : Char) : Bool :=
  c.isAlpha || c.isDigit || c = '+' || c = '-' || c = '.'

/-- Parse `scheme ":"` from the head of the input; fails when the input does
not start with an ASCII letter followed by scheme characters and a colon —
this is what makes `new URL("not a url")` throw. -/
def parseSchemeChars : List Char → Option (List Char × List Char)
  | [] => none
  | c :: rest =>
    if c.isAlpha then
      let more := rest.takeWhile schemeRestOk
      match rest.drop more.length with
      | ':' :: r => some (c :: more, r)
      | _ => none
    else none

/-- The host-port segment of an authority: everything after the last `@`
(userinfo is irrelevant to the origin). -/
def afterLastAt (l : List Char) : List Char :=
  (l.reverse.takeWhile (fun c => c ≠ '@')).reverse

/-- Characters that terminate the authority component. -/
def authorityTerm (c : Char) : Bool := c = '/' || c = '?' || c = '#' || c = '\\'

/-- Characters forbidden inside a host; a host containing one makes the URL
constructor throw. -/
def hostCharOk (c : Char) : Bool :=
  !(c = ' ' || c = '#' || c = '/' || c = ':' || c = '?' || c = '@' || c = '[' ||
    c = ']' || c = '\\' || c = '^' || c = '|' || c = '<' || c = '>' || c = '"' || c.toNat < 32)

/-- Validate explicit port text: empty port text means no port; digit text up
to 65535 is a port; anything else makes the URL invalid. -/
def parsePortChars : List Char → Option (Option Nat)
  | [] => some none
  | pcs =>
    if pcs.all Char.isDigit then
      if digitsToNat pcs ≤ 65535 then some (some (digitsToNat pcs)) else none
    else none

/-- Split a host-port segment at its last colon, if any. -/
def splitHostPort (hp : List Char) : List Char × Option (List Char) :=
  let revPort := hp.reverse.takeWhile (fun c => c ≠ ':')
  if revPort.length = hp.length then (hp, none)
  else (hp.take (hp.length - revPort.length - 1), some revPort.reverse)

/-- The WHATWG special schemes. -/
def isSpecialScheme (s : String) : Bool :=
  s = "http" || s = "https" || s = "ws" || s = "wss" || s = "ftp" || s = "file"

/-- Default ports of the special schemes. -/
def defaultPortOf (s : String) : Option Nat :=
  if s = "http" then some 80
  else if s = "https" then some 443
  else if s = "ws" then some 80
  else if s = "wss" then some 443
  else if s = "ftp" then some 21
  else none

/-- Parse an authority (already cut at the first path/query/fragment
delimiter) into host and port, dropping a port equal to the scheme default. -/
def parseAuthority (scheme : String) (auth : List Char) : Option UrlModel :=
  let split := splitHostPort (afterLastAt auth)
  let portParsed : Option (Option Nat) :=
    match split.2 with
    | none => some none
    | some pcs => parsePortChars pcs
  match portParsed with
  | none => none
  | some port =>
    if split.1.all hostCharOk then
      let elided : Option Nat :=
        match defaultPortOf scheme with
        | some d => if port = some d then none else port
        | none => port
      some ⟨scheme, (split.1.map Char.toLower).asString, elided⟩
    else none

/-- Model of the `new URL(input)` constructor (absolute URLs, no base):
`none` models a thrown `TypeError`. Special schemes skip any run of slashes
after the colon and require a non-empty host (except `file`); non-special
schemes carry either an explicit `//` authority or an opaque path. -/
def jsParseUrl (s : String) : Option UrlModel :=
  match parseSchemeChars (jsTrim s).data with
  | none => none
  | some (schemeCs, rest) =>
    let scheme := (schemeCs.map Char.toLower).asString
    if isSpecialScheme scheme then
      let afterSlashes := rest.dropWhile (fun c => c = '/' || c = '\\')
      let auth := afterSlashes.takeWhile (fun c => !authorityTerm c)
      match parseAuthority scheme auth with
      | some u => if u.host = "" ∧ scheme ≠ "file" then none else some u
      | none => none
    else
      match rest with
      | '/' :: '/' :: r2 =>
        parseAuthority scheme (r2.takeWhile (fun c => !authorityTerm c))
      | _ => some ⟨scheme, "", none⟩

/-- Model of `URL.origin`: a scheme-host-port serialization for the
network special schemes, the literal `"null"` for every other scheme
(opaque origins, including `file:`); path, query and fragment never appear. -/
def urlOrigin (u : UrlModel) : String :=
  if u.scheme = "http" || u.scheme = "https" || u.scheme = "ws" || u.scheme = "wss" ||
      u.scheme = "ftp" then
    u.scheme ++ "://" ++ u.host ++
      (match u.port with
       | some p => ":" ++ natToStr p
       | none => "")
  else "null"

/-- Embedding of `normalizeUrl` from `app.js`: `new URL(url).origin`, with
the original string returned unchanged when the constructor throws. -/
def normalizeUrl (url : String) : String :=
  match jsParseUrl url with
  | some u => urlOrigin u
  | none => url

/-! ### Claim C6 — normalization is total and best-effort -/

/-- C6 (amended): `normalizeUrl` is total: for every input that parses as an
absolute URL it returns exactly the URL's origin (scheme and host, with the
port only when it differs from the scheme's default — a default port such as
443 for https is elided, and path, query and fragment are removed); for every
input that fails to parse it returns the original string unchanged. In
particular `normalizeUrl "https://api.example:443/x?y=1" = "https://api.example"`
and `normalizeUrl "not a url" = "not a url"`. -/
theorem normalizeUrl_total_origin :
    (∀ s, jsParseUrl s = none → normalizeUrl s = s) ∧
    (∀ s u, jsParseUrl s = some u → normalizeUrl s = urlOrigin u) ∧
    normalizeUrl "https://api.example:443/x?y=1" = "https://api.example" ∧
    normalizeUrl "not a url" = "not a url" := by
  refine ⟨?hn, ?hs, by decide, by decide⟩
  · intro s h
    simp [normalizeUrl, h]
  · intro s u h
    simp [normalizeUrl, h]

/-- C6 witness: concrete applications of both branches of the totality
claim. -/
theorem normalizeUrl_total_origin_witness :
    normalizeUrl "not a url" = "not a url" ∧
    normalizeUrl "https://api.example:443/x?y=1" = urlOrigin ⟨"https", "api.example", none⟩ :=
  ⟨normalizeUrl_total_origin.1 "not a url" (by decide),
   normalizeUrl_total_origin.2.1 "https://api.example:443/x?y=1" ⟨"https", "api.example", none⟩
     (by decide)⟩

/-- C6 counterexample: the claim asserts
`normalize("https://api.example:443/x?y=1") = "https://api.example:443"`, but
`URL.origin` elides the default https port 443, so the code returns
`"https://api.example"`. -/
theorem normalizeUrl_default_port_counterexample :
    normalizeUrl "https://api.example:443/x?y=1" = "https://api.example" ∧
    "https://api.example" ≠ "https://api.example:443" := by
  refine ⟨by decide, by decide⟩

/-! ### UI actions (`app.js` event handlers) -/

/-- Outcome of the browser `fetch` for one request: a delivered HTTP
response, or a transport failure whose message becomes the rejection's
`error.message`. -/
inductive FetchOutcome where
  | response (r : BackendResponse)
  | networkError (message : String)

/-- Settle one `fetchFromBackend(path)` call against the network environment
`env` (the backend as an oracle from request path to outcome). -/
def settleFetch (env : String → FetchOutcome) (path : String) : Except String Payload :=
  match env path with
  | .response r => fetchFromBackend r
  | .networkError m => .error m

/-- The state of one result-display container: its rendered content (the
serialization of the payload, kept symbolic) and whether the `error` CSS
class is set. -/
structure ContainerState where
  content : Payload
  isError : Bool

/-- Model of `displayResult(container, payload, isError)`: the new state of
the targeted container. -/
def displayResult (payload : Payload) (isError : Bool) : ContainerState :=
  ⟨payload, isError⟩

/-- The three per-action result containers of the page. -/
structure DomState where
  healthResult : ContainerState
  openItemsResult : ContainerState
  consoleResult : ContainerState

/-- The shared try/catch tail of every action handler: render the resolved
data, or render `error.message` with the error flag. -/
def settleAction (env : String → FetchOutcome) (path : String) : ContainerState :=
  match settleFetch env path with
  | .ok data => displayResult data false
  | .error m => displayResult (.rawText m) true

/-- The user-triggerable UI events of `app.js`: a click on the health-check
button, a submit of the open-items form carrying the organization-identifier
field text, and a submit of the console form carrying the path field text. -/
inductive UiEvent where
  | clickHealth
  | submitOpenItems (value : String)
  | submitConsole (value : String)

/-- Embedding of the three event handlers of `app.js`. Returns the DOM state
after the handler's promise settles, together with the list of request paths
handed to `fetchFromBackend` (empty when validation short-circuits). Each
handler first renders the `'Lade...'` placeholder into its own container,
except the open-items validation branch, which renders the validation
message immediately and issues no request. -/
def handleEvent (env : String → FetchOutcome) (e : UiEvent) (dom : DomState) :
    DomState × List String :=
  match e with
  | .clickHealth =>
    let d1 := { dom with healthResult := displayResult (.rawText "Lade...") false }
    ({ d1 with healthResult := settleAction env "/health" }, ["/health"])
  | .submitOpenItems v =>
    match jsParseIntFinite v with
    | none =>
      ({ dom with openItemsResult := displayResult (.rawText "Ungültige Organisation-ID.") true },
        [])
    | some organizationId =>
      let d1 := { dom with openItemsResult := displayResult (.rawText "Lade...") false }
      let path := "/invoices/open?organization_id=" ++ intToStr organizationId
      ({ d1 with openItemsResult := settleAction env path }, [path])
  | .submitConsole v =>
    let path := if v = "" then "/" else v
    let d1 := { dom with consoleResult := displayResult (.rawText "Lade...") false }
    ({ d1 with consoleResult := settleAction env path }, [path])

/-- The final line of `app.js`: script initialization ends with a
programmatic `healthButton.click()`, so page load runs the health handler
once. -/
def pageLoad (env : String → FetchOutcome) (dom : DomState) : DomState × List String :=
  handleEvent env .clickHealth dom

/-- A network environment where every request fails at the transport layer,
used to evaluate handler behavior on concrete events. -/
def envRefused : String → FetchOutcome := fun _ => .networkError "Failed to fetch"

/-- An initial DOM state with empty, non-error containers. -/
def dom0 : DomState :=
  ⟨⟨.rawText "", false⟩, ⟨.rawText "", false⟩, ⟨.rawText "", false⟩⟩

/-! ### Claim C7 — invalid organization identifiers short-circuit -/

/-- C7 (amended): for every submission of the open-items form whose
organization-identifier text has no finite `Number.parseInt` value (no
leading decimal digits after an optional sign, or a value overflowing to
Infinity), the handler issues no network request and immediately renders the
validation message, with the error flag, to the open-items result area,
leaving the rest of the DOM unchanged. -/
theorem openItems_invalid_id_no_request (env : String → FetchOutcome) (dom : DomState)
    (v : String) (h : jsParseIntFinite v = none) :
    (handleEvent env (.submitOpenItems v) dom).2 = [] ∧
    (handleEvent env (.submitOpenItems v) dom).1 =
      { dom with openItemsResult := ⟨.rawText "Ungültige Organisation-ID.", true⟩ } := by
  simp [handleEvent, h, displayResult]

/-- C7 witness: the non-numeric input `"abc"` issues no request. -/
theorem openItems_invalid_id_no_request_witness :
    (handleEvent envRefused (.submitOpenItems "abc") dom0).2 = [] :=
  (openItems_invalid_id_no_request envRefused dom0 "abc" (by decide)).1

/-- C7 counterexample: `"12abc"` is not a numeric value as a whole, yet the
handler does issue a network request, because `Number.parseInt` accepts the
numeric prefix `12`; the claim asserts that no request is issued for every
non-numeric field value. -/
theorem openItems_numeric_prefix_counterexample :
    wholeInputIsFiniteNumber "12abc" = false ∧
    (handleEvent envRefused (.submitOpenItems "12abc") dom0).2 =
      ["/invoices/open?organization_id=12"] := by
  refine ⟨by decide, by decide⟩

/-! ### Claim C8 — actions are mutually isolated -/

/-- C8: every pair of distinct UI actions is isolated: whatever the network
outcome (including failures, since the environment is arbitrary), running
one action's handler leaves the result containers of the two other actions
exactly as they were, so a failure in one action changes only that action's
own result-display element. -/
theorem actions_isolated_frame (env : String → FetchOutcome) (dom : DomState) (v w : String) :
    ((handleEvent env .clickHealth dom).1.openItemsResult = dom.openItemsResult ∧
      (handleEvent env .clickHealth dom).1.consoleResult = dom.consoleResult) ∧
    ((handleEvent env (.submitOpenItems v) dom).1.healthResult = dom.healthResult ∧
      (handleEvent env (.submitOpenItems v) dom).1.consoleResult = dom.consoleResult) ∧
    ((handleEvent env (.submitConsole w) dom).1.healthResult = dom.healthResult ∧
      (handleEvent env (.submitConsole w) dom).1.openItemsResult = dom.openItemsResult) := by
  refine ⟨⟨rfl, rfl⟩, ?hoi, ⟨rfl, rfl⟩⟩
  cases h : jsParseIntFinite v <;> simp [handleEvent, h]

/-! ### Claim C9 — empty console path defaults to root -/

/-- C9: submitting the console form with an empty path field invokes the
request pipeline with the path `"/"` — the single request issued is to `"/"`,
and the whole handler behaves exactly as if `"/"` had been typed. -/
theorem console_empty_path_default (env : String → FetchOutcome) (dom : DomState) :
    (handleEvent env (.submitConsole "") dom).2 = ["/"] ∧
    handleEvent env (.submitConsole "") dom = handleEvent env (.submitConsole "/") dom := by
  exact ⟨rfl, rfl⟩

/-! ### Claim C10 — automatic initial health check -/

/-- C10: at the end of script initialization the health action is triggered
exactly once programmatically: for every network environment and initial DOM
state, page load issues exactly the single request `"/health"` without any
user interaction. -/
theorem pageLoad_health_request_once (env : String → FetchOutcome) (dom : DomState) :
    (pageLoad env dom).2 = ["/health"] ∧ (pageLoad env dom).2.length = 1 := by
  exact ⟨rfl, rfl⟩
